import Mathlib

/-!
Verification development for the off-chain wallet components of the
reference-wallet repository: the KYC command evaluator
(`wallet/services/offchain/utils.py`), the payment-command serialization and
the funds-pull-pre-approval routes (`webapp/routes/offchain.py`).

Machine data is modelled as `List Nat` byte sequences; Python `Optional`
values as `Option`; fallible operations as `Except`.  Parts of the repository
that are referenced but absent from the excerpt (the `diem.identifier` codec,
the storage sub-address map, the funds-pull-pre-approval service, the KYC
profile provider and the `diem.offchain.PaymentCommand` engine methods) are
modelled from the specification and are marked as such in their doc comments.
-/

set_option autoImplicit false

namespace RefWallet

/-- A byte sequence (each entry intended to be < 256). -/
abbrev Bytes := List Nat

/-- Hex digit character for a value < 16 (lowercase, as Python `bytes.hex`). -/
def hexDigit (n : Nat) : Char :=
  if n < 10 then Char.ofNat (48 + n) else Char.ofNat (87 + n)

/-- Lowercase hex rendering of a byte sequence, as Python `bytes.hex()` /
`.to_hex()`. -/
def bytesToHex (bs : Bytes) : String :=
  String.mk (bs.foldr (fun b acc => hexDigit (b / 16) :: hexDigit (b % 16) :: acc) [])

/-- Status values an actor of a payment command can carry
(`diem.offchain.Status`; the excerpt uses only `ready_for_settlement`). -/
inductive Status where
  | needs_kyc_data
  | ready_for_settlement
  | abort
  | soft_match
  deriving DecidableEq, Repr

/-- The wire string of a `Status` value. -/
def Status.wire : Status → String
  | .needs_kyc_data => "needs_kyc_data"
  | .ready_for_settlement => "ready_for_settlement"
  | .abort => "abort"
  | .soft_match => "soft_match"

/-- Actor status object (`actor.status.status` in the source). -/
structure StatusObject where
  status : Status
  deriving DecidableEq, Repr

/-- KYC data object in the wire shape: `type` and `payload_version` are
required, all other fields are optional strings (spec section 3). -/
structure KycDataObject where
  type : String
  payload_version : Nat
  given_name : Option String
  surname : Option String
  address : Option String
  dob : Option String
  place_of_birth : Option String
  national_id : Option String
  legal_entity_name : Option String
  deriving DecidableEq, Repr

/-- One party (sender or receiver) inside a payment command. -/
structure Actor where
  address : String
  status : StatusObject
  metadata : List String
  additional_kyc_data : Option String
  kyc_data : Option KycDataObject
  deriving DecidableEq, Repr

/-- The action of a payment (amount, currency, action kind, timestamp). -/
structure PaymentAction where
  amount : Nat
  currency : String
  action : String
  timestamp : Nat
  deriving DecidableEq, Repr

/-- The payment object inside a payment command. -/
structure PaymentObject where
  reference_id : String
  sender : Actor
  receiver : Actor
  action : PaymentAction
  original_payment_reference_id : Option String
  recipient_signature : Option String
  description : Option String
  deriving DecidableEq, Repr

/-- One in-flight payment command (`diem.offchain.PaymentCommand`). -/
structure PaymentCommand where
  my_actor_address : String
  payment : PaymentObject
  inbound : Bool
  cid : String
  deriving DecidableEq, Repr

/-- Modelled from the spec: `is_receiver()` of the external command engine —
the local party is the receiver when the command's local actor address is the
receiver actor's address (spec section 6 exposes it only as a boolean). -/
def is_receiver (c : PaymentCommand) : Bool :=
  c.my_actor_address == c.payment.receiver.address

/-- Modelled from the spec: `new_command(**fields)` of the external command
engine — returns an updated immutable copy: `recipient_signature` is set on
the payment, `kyc_data` and `status` on the local actor; every omitted field
is unchanged (spec sections 4.3 and 6). -/
def newCommand (c : PaymentCommand) (rs : Option String)
    (kd : Option KycDataObject) (st : Option Status) : PaymentCommand :=
  let upd : Actor → Actor := fun a =>
    { a with
      status := match st with
        | some s => { status := s }
        | none => a.status
      kyc_data := match kd with
        | some k => some k
        | none => a.kyc_data }
  { c with
    payment :=
      { c.payment with
        recipient_signature := match rs with
          | some s => some s
          | none => c.payment.recipient_signature
        sender := if is_receiver c then c.payment.sender else upd c.payment.sender
        receiver := if is_receiver c then upd c.payment.receiver else c.payment.receiver } }

/-- Codec failures (spec section 4.1). -/
inductive CodecErr where
  | MalformedIdentifier
  deriving DecidableEq, Repr

/-- Modelled from the spec: `identifier.encode_account` of the external
`diem` library — a pure deterministic serialization of (on-chain address,
sub-address) under a human-readable network part: the network part, a
separator byte 49, the 16 address bytes, then the 8 sub-address bytes. -/
def encode_account (addr sub hrpPart : Bytes) : Bytes :=
  hrpPart ++ 49 :: (addr ++ sub)

/-- Modelled from the spec: `identifier.decode_account` — parses an
identifier back into (on-chain address, optional sub-address) under the given
network part, failing with `MalformedIdentifier` when it does not parse; an
all-zero sub-address decodes to `none`. -/
def decode_account (ident hrpPart : Bytes) : Except CodecErr (Bytes × Option Bytes) :=
  let pre := ident.takeWhile (fun b => b != 49)
  let rest := ident.dropWhile (fun b => b != 49)
  if pre = hrpPart then
    match rest with
    | 49 :: payload =>
      if payload.length = 24 then
        let addr := payload.take 16
        let sub := payload.drop 16
        Except.ok (addr, if sub.all (fun b => b == 0) then none else some sub)
      else Except.error CodecErr.MalformedIdentifier
    | _ => Except.error CodecErr.MalformedIdentifier
  else Except.error CodecErr.MalformedIdentifier

/-- Ambient context of the service (`context.get()` in the source) together
with the external collaborators of spec section 6, modelled as function
fields: `sign` is the Ed25519 compliance signer, `sig_msg` the canonical
travel-rule signature message of a command, `subaddr_map` the persisted
sub-address-hex to account-id mapping, `kyc_info` the KYC profile provider,
`gen_sub` the sub-address allocator, and `engine` the off-chain protocol
engine behind `process_inbound_command`. -/
structure Ctx where
  hrp : Bytes
  vasp_address : Bytes
  sign : Bytes → Bytes
  sig_msg : PaymentCommand → Bytes
  subaddr_map : List (String × Nat)
  kyc_info : Nat → Option KycDataObject
  gen_sub : Nat → Bytes
  engine : Option String → Bytes → Nat × Bytes

/-- Embedding of `account_address_and_subaddress` of `utils.py`: decode an account
identifier and render the parts as hex. -/
def account_address_and_subaddress (ctx : Ctx) (account_id : Bytes) :
    Except CodecErr (String × Option String) :=
  match decode_account account_id ctx.hrp with
  | Except.ok (a, s) => Except.ok (bytesToHex a, s.map bytesToHex)
  | Except.error e => Except.error e

/-- Embedding of `generate_my_address` of `utils.py`: encode the custodian's address with
a freshly generated sub-address for the account. -/
def generate_my_address (ctx : Ctx) (account_id : Nat) : Bytes :=
  encode_account ctx.vasp_address (ctx.gen_sub account_id) ctx.hrp

/-- Modelled from the spec: `receiver_subaddress(prefix)` of the external
command engine — the sub-address extracted from the receiver actor's address,
decoded under the network part. -/
def receiver_subaddress (hrpPart : Bytes) (c : PaymentCommand) : Option Bytes :=
  match decode_account (c.payment.receiver.address.toList.map Char.toNat) hrpPart with
  | Except.ok (_, s) => s
  | Except.error _ => none

/-- Errors of the evaluator (spec section 4.3). -/
inductive EvalErr where
  | SubAddressResolutionFailed
  | UserNotFound
  deriving DecidableEq, Repr

/-- Embedding of `_send_kyc_data_and_recipient_signature` of `utils.py`: sign the
travel-rule message, resolve the receiver sub-address to a local account,
fetch its KYC data, and return the updated command.  Failure to decode the
sub-address or to resolve it to a known account is
`SubAddressResolutionFailed` (spec section 4.3). -/
def send_kyc_data_and_recipient_signature (ctx : Ctx) (c : PaymentCommand) :
    Except EvalErr PaymentCommand :=
  let m := ctx.sig_msg c
  match receiver_subaddress ctx.hrp c with
  | none => Except.error EvalErr.SubAddressResolutionFailed
  | some sub =>
    match ctx.subaddr_map.lookup (bytesToHex sub) with
    | none => Except.error EvalErr.SubAddressResolutionFailed
    | some uid =>
      match ctx.kyc_info uid with
      | none => Except.error EvalErr.UserNotFound
      | some kd =>
        Except.ok (newCommand c (some (bytesToHex (ctx.sign m))) (some kd)
          (some Status.ready_for_settlement))

/-- Embedding of `evaluate_kyc_data` of `utils.py`: the receiver attaches KYC data and a
recipient signature; the sender only moves to `ready_for_settlement`. -/
def evaluate_kyc_data (ctx : Ctx) (c : PaymentCommand) : Except EvalErr PaymentCommand :=
  if is_receiver c then send_kyc_data_and_recipient_signature ctx c
  else Except.ok (newCommand c none none (some Status.ready_for_settlement))

/-- Status of a funds-pull pre-approval (spec section 3). -/
inductive ApprovalStatus where
  | pending
  | approved
  | rejected
  | closed
  deriving DecidableEq, Repr

/-- One funds-pull pre-approval record, with the fields the route layer
serializes in `CommandsRoutes.create_command_response_object`. -/
structure Fppa where
  address : String
  biller_address : String
  funds_pull_pre_approval_id : String
  funds_pull_pre_approval_type : String
  expiration_timestamp : Nat
  max_cumulative_unit : String
  max_cumulative_unit_value : Nat
  max_cumulative_amount : Nat
  max_cumulative_amount_currency : String
  max_transaction_amount : Nat
  max_transaction_amount_currency : String
  description : String
  status : ApprovalStatus
  deriving DecidableEq, Repr

/-- Errors of the funds-pull pre-approval service (spec section 4.5). -/
inductive FppaErr where
  | ApprovalNotFound
  | InvalidDecision
  | InvalidStateTransition
  deriving DecidableEq, Repr

/-- The persisted approval store, looked up by approval id. -/
def findApproval (store : List Fppa) (id : String) : Option Fppa :=
  store.find? (fun a => a.funds_pull_pre_approval_id == id)

/-- The stored status of an approval id, when present. -/
def statusOf (store : List Fppa) (id : String) : Option ApprovalStatus :=
  (findApproval store id).map (fun a => a.status)

/-- Set the status of the approval with the given id, leaving every other
record untouched. -/
def updStatus (store : List Fppa) (id : String) (st : ApprovalStatus) : List Fppa :=
  store.map (fun b =>
    if b.funds_pull_pre_approval_id == id then { b with status := st } else b)

/-- Modelled from the spec: `fppa_service.approve(approval_id, decision)` of
`wallet/services/fund_pull_pre_approval.py` (absent from the excerpt) — looks
the approval up by id, failing with `ApprovalNotFound` if absent; validates
the decision is `approved` or `rejected`, failing with `InvalidDecision`
otherwise; a transition from a non-pending state fails with
`InvalidStateTransition`; otherwise applies the transition (spec sections 4.5
and 8). -/
def approve (store : List Fppa) (id decision : String) : Except FppaErr (List Fppa) :=
  match findApproval store id with
  | none => Except.error FppaErr.ApprovalNotFound
  | some a =>
    if decision == "approved" || decision == "rejected" then
      if a.status == ApprovalStatus.pending then
        Except.ok (updStatus store id
          (if decision == "approved" then ApprovalStatus.approved else ApprovalStatus.rejected))
      else Except.error FppaErr.InvalidStateTransition
    else Except.error FppaErr.InvalidDecision

/-- Embedding of `UpdateFundPullPreApprovalStatus.put` of `routes/offchain.py`: calls the
service's `approve`; a missing approval id becomes a 404 response whose
message names the id; success is a 204 `OK` response; any other service
error propagates past the handler. -/
def updateFppaStatusPut (store : List Fppa) (id status : String) :
    Except FppaErr (String × Nat) :=
  match approve store id status with
  | Except.ok _ => Except.ok ("OK", 204)
  | Except.error FppaErr.ApprovalNotFound =>
    Except.ok ("Funds pre approval id " ++ id ++ " was not found.", 404)
  | Except.error e => Except.error e

/-- A JSON-like value, the target of the dict serializers. -/
inductive JVal where
  | jnull
  | jstr (s : String)
  | jnum (n : Nat)
  | jbool (b : Bool)
  | jarr (xs : List JVal)
  | jobj (fields : List (String × JVal))
  deriving Repr

/-- A serialized dict. -/
abbrev JDict := List (String × JVal)

/-- Whether a serialized dict carries the given key. -/
def hasKey (d : JDict) (k : String) : Bool :=
  d.any (fun p => p.1 == k)

/-- Python truthiness of an optional string: `None` and the empty string are
falsy. -/
def optStrTruthy : Option String → Bool
  | none => false
  | some s => !(s == "")

/-- An optional string as a JSON value (`None` becomes null). -/
def optStrVal : Option String → JVal
  | none => JVal.jnull
  | some s => JVal.jstr s

/-- The `kyc_data` sub-dict built by `actor_to_dict`: all nine keys are
always present, missing optional values serialize as null. -/
def kyc_data_to_dict (kd : KycDataObject) : JDict :=
  [("type", JVal.jstr kd.type),
   ("payload_version", JVal.jnum kd.payload_version),
   ("given_name", optStrVal kd.given_name),
   ("surname", optStrVal kd.surname),
   ("address", optStrVal kd.address),
   ("dob", optStrVal kd.dob),
   ("place_of_birth", optStrVal kd.place_of_birth),
   ("national_id", optStrVal kd.national_id),
   ("legal_entity_name", optStrVal kd.legal_entity_name)]

/-- Embedding of `actor_to_dict` of `routes/offchain.py`: address and status always,
`metadata`, `additional_kyc_data` and `kyc_data` only when truthy. -/
def actor_to_dict (a : Actor) : JDict :=
  [("address", JVal.jstr a.address),
   ("status", JVal.jobj [("status", JVal.jstr a.status.status.wire)])]
  ++ (if a.metadata.isEmpty then [] else
      [("metadata", JVal.jarr (a.metadata.map JVal.jstr))])
  ++ (if optStrTruthy a.additional_kyc_data then
      [("additional_kyc_data", optStrVal a.additional_kyc_data)] else [])
  ++ (match a.kyc_data with
      | some kd => [("kyc_data", JVal.jobj (kyc_data_to_dict kd))]
      | none => [])

/-- Embedding of `action_to_dict` of `routes/offchain.py`. -/
def action_to_dict (a : PaymentAction) : JDict :=
  [("amount", JVal.jnum a.amount),
   ("currency", JVal.jstr a.currency),
   ("action", JVal.jstr a.action),
   ("timestamp", JVal.jnum a.timestamp)]

/-- The inner `payment` dict of `payment_command_to_dict`:
`original_payment_reference_id`, `recipient_signature` and `description` only
when truthy. -/
def payment_to_dict (p : PaymentObject) : JDict :=
  [("reference_id", JVal.jstr p.reference_id),
   ("sender", JVal.jobj (actor_to_dict p.sender)),
   ("receiver", JVal.jobj (actor_to_dict p.receiver)),
   ("action", JVal.jobj (action_to_dict p.action))]
  ++ (if optStrTruthy p.original_payment_reference_id then
      [("original_payment_reference_id", optStrVal p.original_payment_reference_id)] else [])
  ++ (if optStrTruthy p.recipient_signature then
      [("recipient_signature", optStrVal p.recipient_signature)] else [])
  ++ (if optStrTruthy p.description then
      [("description", optStrVal p.description)] else [])

/-- Embedding of `payment_command_to_dict` of `routes/offchain.py`. -/
def payment_command_to_dict (c : PaymentCommand) : JDict :=
  [("my_actor_address", JVal.jstr c.my_actor_address),
   ("inbound", JVal.jbool c.inbound),
   ("cid", JVal.jstr c.cid),
   ("payment", JVal.jobj (payment_to_dict c.payment))]

/-- The header name of the request correlation id. -/
def X_REQUEST_ID : String := "X-Request-ID"

/-- The header name of the request sender address. -/
def X_REQUEST_SENDER_ADDRESS : String := "X-Request-Sender-Address"

/-- An inbound HTTP request at the off-chain v2 boundary: its headers and its
raw body. -/
structure HttpRequest where
  headers : List (String × String)
  body : Bytes

/-- Embedding of `OffchainV2View.dispatch_request` of `routes/offchain.py`: read the
correlation id and sender address headers, hand the raw body to the protocol
engine, and return the engine's body and status code together with the echoed
correlation-id header. -/
def dispatch_request (ctx : Ctx) (req : HttpRequest) :
    Bytes × Nat × List (String × Option String) :=
  let x_request_id := req.headers.lookup X_REQUEST_ID
  let sender_address := req.headers.lookup X_REQUEST_SENDER_ADDRESS
  let r := ctx.engine sender_address req.body
  (r.2, r.1, [(X_REQUEST_ID, x_request_id)])

/-! Concrete sample data, used to evaluate the definitions at closed inputs. -/

/-- Sample network part, the bytes of `dm`. -/
def sampleHrp : Bytes := [100, 109]

/-- Sample 16-byte on-chain address. -/
def sampleAddr : Bytes := List.replicate 16 97

/-- Sample 8-byte (non-zero) sub-address. -/
def sampleSub : Bytes := List.replicate 8 98

/-- The sample receiver identifier rendered as the string the actor carries. -/
def sampleRecvAddr : String :=
  String.mk ((encode_account sampleAddr sampleSub sampleHrp).map Char.ofNat)

/-- Sample KYC data object of the local account. -/
def sampleKd : KycDataObject :=
  { type := "individual", payload_version := 1, given_name := some "Jane",
    surname := some "Doe", address := none, dob := none, place_of_birth := none,
    national_id := none, legal_entity_name := none }

/-- Sample context: the sub-address map resolves the sample sub-address to
account 11, whose KYC data is `sampleKd`. -/
def sampleCtx : Ctx :=
  { hrp := sampleHrp
    vasp_address := sampleAddr
    sign := fun _ => List.replicate 64 7
    sig_msg := fun c => c.cid.toList.map Char.toNat
    subaddr_map := [(bytesToHex sampleSub, 11)]
    kyc_info := fun u => if u = 11 then some sampleKd else none
    gen_sub := fun _ => sampleSub
    engine := fun _ b => (200, b) }

/-- An actor at the given address carrying no optional data. -/
def mkActor (ad : String) : Actor :=
  { address := ad, status := { status := Status.needs_kyc_data }, metadata := [],
    additional_kyc_data := none, kyc_data := none }

/-- A sample command whose local actor is the receiver. -/
def sampleCmdRecv : PaymentCommand :=
  { my_actor_address := sampleRecvAddr
    payment :=
      { reference_id := "ref-1", sender := mkActor "other",
        receiver := mkActor sampleRecvAddr,
        action := { amount := 100, currency := "XUS", action := "charge", timestamp := 5 },
        original_payment_reference_id := none, recipient_signature := none,
        description := none }
    inbound := true
    cid := "cid-1" }

/-- A sample command whose local actor is the sender. -/
def sampleCmdSend : PaymentCommand :=
  { my_actor_address := "mine"
    payment :=
      { reference_id := "ref-2", sender := mkActor "mine",
        receiver := mkActor "other",
        action := { amount := 7, currency := "XUS", action := "charge", timestamp := 9 },
        original_payment_reference_id := none, recipient_signature := none,
        description := none }
    inbound := false
    cid := "cid-2" }

/-- A sample receiver-side command whose receiver address does not decode
under the network part. -/
def sampleCmdBad : PaymentCommand :=
  { my_actor_address := "oops"
    payment :=
      { reference_id := "ref-3", sender := mkActor "other",
        receiver := mkActor "oops",
        action := { amount := 3, currency := "XUS", action := "charge", timestamp := 1 },
        original_payment_reference_id := none, recipient_signature := none,
        description := none }
    inbound := true
    cid := "cid-3" }

/-- A sample pending approval record with id `appr-1`. -/
def sampleFppa : Fppa :=
  { address := "payer", biller_address := "biller",
    funds_pull_pre_approval_id := "appr-1",
    funds_pull_pre_approval_type := "consent", expiration_timestamp := 2000000000,
    max_cumulative_unit := "month", max_cumulative_unit_value := 1,
    max_cumulative_amount := 100000, max_cumulative_amount_currency := "USD",
    max_transaction_amount := 5000, max_transaction_amount_currency := "USD",
    description := "subscription", status := ApprovalStatus.pending }

/-- A sample store holding the single pending approval. -/
def sampleStore : List Fppa := [sampleFppa]

/-! Helper lemmas. -/

theorem bytesToHex_ne_empty (bs : Bytes) (h : bs ≠ []) : bytesToHex bs ≠ "" := by
  cases bs with
  | nil => exact absurd rfl h
  | cons b t =>
    intro he
    have hd := congrArg String.data he
    simp [bytesToHex] at hd

theorem takeWhile_append_sep (l t : List Nat) (h : 49 ∉ l) :
    (l ++ 49 :: t).takeWhile (fun b => b != 49) = l := by
  induction l with
  | nil => simp [List.takeWhile]
  | cons a l ih =>
    have ha : a ≠ 49 := fun e => h (e ▸ List.mem_cons_self a l)
    have hl : 49 ∉ l := fun hm => h (List.mem_cons_of_mem a hm)
    simp [List.takeWhile_cons, ha, ih hl]

theorem dropWhile_append_sep (l t : List Nat) (h : 49 ∉ l) :
    (l ++ 49 :: t).dropWhile (fun b => b != 49) = 49 :: t := by
  induction l with
  | nil => simp [List.dropWhile]
  | cons a l ih =>
    have ha : a ≠ 49 := fun e => h (e ▸ List.mem_cons_self a l)
    have hl : 49 ∉ l := fun hm => h (List.mem_cons_of_mem a hm)
    simp [List.dropWhile_cons, ha, ih hl]

theorem decode_encode (addr sub hrpPart : Bytes) (h49 : 49 ∉ hrpPart)
    (ha : addr.length = 16) (hs : sub.length = 8)
    (hnz : sub.all (fun b => b == 0) = false) :
    decode_account (encode_account addr sub hrpPart) hrpPart =
      Except.ok (addr, some sub) := by
  unfold decode_account encode_account
  rw [takeWhile_append_sep _ _ h49, dropWhile_append_sep _ _ h49]
  have hlen : (addr ++ sub).length = 24 := by simp [ha, hs]
  have htake : (addr ++ sub).take 16 = addr := by
    rw [← ha]; exact List.take_left addr sub
  have hdrop : (addr ++ sub).drop 16 = sub := by
    rw [← ha]; exact List.drop_left addr sub
  simp [hlen, htake, hdrop, hnz]

/-- Claim C5: for every valid (on-chain address, sub-address, network part)
triple, decoding the encoded identifier yields the pair back, and through the
source wrappers: `account_address_and_subaddress` applied to the identifier
produced by `generate_my_address` returns the custodian address and the
generated sub-address (hex-rendered). -/
theorem c5_address_roundtrip (ctx : Ctx) (aid : Nat)
    (h49 : 49 ∉ ctx.hrp) (ha : ctx.vasp_address.length = 16)
    (hs : (ctx.gen_sub aid).length = 8)
    (hnz : (ctx.gen_sub aid).all (fun b => b == 0) = false) :
    decode_account (encode_account ctx.vasp_address (ctx.gen_sub aid) ctx.hrp) ctx.hrp
      = Except.ok (ctx.vasp_address, some (ctx.gen_sub aid)) ∧
    account_address_and_subaddress ctx (generate_my_address ctx aid)
      = Except.ok (bytesToHex ctx.vasp_address, some (bytesToHex (ctx.gen_sub aid))) := by
  have h := decode_encode ctx.vasp_address (ctx.gen_sub aid) ctx.hrp h49 ha hs hnz
  refine ⟨h, ?_⟩
  unfold account_address_and_subaddress generate_my_address
  rw [h]
  rfl

/-- Witness for C5 at the sample context. -/
theorem c5_address_roundtrip_witness :
    decode_account (encode_account sampleCtx.vasp_address (sampleCtx.gen_sub 3) sampleCtx.hrp)
        sampleCtx.hrp
      = Except.ok (sampleCtx.vasp_address, some (sampleCtx.gen_sub 3)) ∧
    account_address_and_subaddress sampleCtx (generate_my_address sampleCtx 3)
      = Except.ok (bytesToHex sampleCtx.vasp_address, some (bytesToHex (sampleCtx.gen_sub 3))) :=
  c5_address_roundtrip sampleCtx 3 (by decide) (by decide) (by decide) (by decide)

/-- Claim C8: the dispatch entry point hands the raw request body and the
sender header to the protocol engine unmodified and returns the engine's
response body and status code verbatim, for every engine. -/
theorem c8_dispatch_passthrough (ctx : Ctx) (req : HttpRequest) :
    (dispatch_request ctx req).1 =
      (ctx.engine (req.headers.lookup X_REQUEST_SENDER_ADDRESS) req.body).2 ∧
    (dispatch_request ctx req).2.1 =
      (ctx.engine (req.headers.lookup X_REQUEST_SENDER_ADDRESS) req.body).1 :=
  ⟨rfl, rfl⟩

/-- Claim C10: the dispatch response carries an `X-Request-ID` header equal
to the incoming request's `X-Request-ID` header (and `none` when the request
had none). -/
theorem c10_request_id_echo (ctx : Ctx) (req : HttpRequest) :
    ((dispatch_request ctx req).2.2).lookup X_REQUEST_ID
      = some (req.headers.lookup X_REQUEST_ID) := by
  simp [dispatch_request, List.lookup]

theorem updStatus_preserves_id (b : Fppa) (id : String) (st : ApprovalStatus) :
    ((if b.funds_pull_pre_approval_id == id then { b with status := st } else b) :
      Fppa).funds_pull_pre_approval_id = b.funds_pull_pre_approval_id := by
  split <;> rfl

theorem findApproval_updStatus (store : List Fppa) (id : String) (st : ApprovalStatus)
    (a : Fppa) (hf : findApproval store id = some a) :
    findApproval (updStatus store id st) id = some { a with status := st } := by
  have hf' : List.find? (fun x : Fppa => x.funds_pull_pre_approval_id == id) store
      = some a := hf
  have ha' := List.find?_some hf'
  have ha : (a.funds_pull_pre_approval_id == id) = true := ha'
  rw [findApproval, updStatus, List.find?_map]
  have hp : ((fun x : Fppa => x.funds_pull_pre_approval_id == id) ∘
      (fun b : Fppa => if b.funds_pull_pre_approval_id == id then { b with status := st } else b))
      = (fun x : Fppa => x.funds_pull_pre_approval_id == id) := by
    funext b
    by_cases hb : b.funds_pull_pre_approval_id = id
    · simp [Function.comp, hb]
    · simp [Function.comp, hb]
  rw [hp]
  rw [findApproval] at hf
  rw [hf]
  have haeq : a.funds_pull_pre_approval_id = id := by simpa using ha
  simp [haeq]

/-- Claim C3: for every approval id whose stored status is not `pending`,
attempting a transition (any decision in {approved, rejected}) fails with
`InvalidStateTransition` and does not silently succeed: the stored status is
unchanged.  In particular, after `approve(id, "approved")` succeeds the
record's status is `approved`, so a subsequent `approve(id, "rejected")` on
the same id fails and the status remains `approved` (the witness exercises
exactly that scenario). -/
theorem c3_non_pending_transition (store : List Fppa) (id d : String) (a : Fppa)
    (hf : findApproval store id = some a)
    (hnp : (a.status == ApprovalStatus.pending) = false)
    (hd : ((d == "approved") || (d == "rejected")) = true) :
    approve store id d = Except.error FppaErr.InvalidStateTransition ∧
    statusOf store id = some a.status := by
  constructor
  · rw [approve, hf, hd]
    simp [hnp]
  · rw [statusOf, hf]
    rfl

/-- Witness for C3: the store produced by approving the sample pending
approval holds it in `approved` status, and rejecting it afterwards fails
with `InvalidStateTransition` while the status stays `approved`. -/
theorem c3_non_pending_transition_witness :
    approve (updStatus sampleStore "appr-1" ApprovalStatus.approved) "appr-1" "rejected"
      = Except.error FppaErr.InvalidStateTransition ∧
    statusOf (updStatus sampleStore "appr-1" ApprovalStatus.approved) "appr-1"
      = some ({ sampleFppa with status := ApprovalStatus.approved } : Fppa).status :=
  c3_non_pending_transition (updStatus sampleStore "appr-1" ApprovalStatus.approved)
    "appr-1" "rejected" { sampleFppa with status := ApprovalStatus.approved }
    (by rfl) (by rfl) (by rfl)

/-- Claim C6: for a present approval id, a decision other than `approved` or
`rejected` fails with `InvalidDecision` (whatever the stored status, so
before any transition is applied). -/
theorem c6_invalid_decision (store : List Fppa) (id d : String) (a : Fppa)
    (hf : findApproval store id = some a)
    (hd : ((d == "approved") || (d == "rejected")) = false) :
    approve store id d = Except.error FppaErr.InvalidDecision := by
  rw [approve, hf, hd]
  rfl

/-- Witness for C6 at the sample store with decision `maybe`. -/
theorem c6_invalid_decision_witness :
    approve sampleStore "appr-1" "maybe" = Except.error FppaErr.InvalidDecision :=
  c6_invalid_decision sampleStore "appr-1" "maybe" sampleFppa (by rfl) (by rfl)

/-- Claim C7: for an absent approval id, the route responds with a 404 whose
message names the id, and the service call itself fails with
`ApprovalNotFound` for every decision, so no state change occurs. -/
theorem c7_approve_not_found (store : List Fppa) (id d : String)
    (hf : findApproval store id = none) :
    updateFppaStatusPut store id d
      = Except.ok ("Funds pre approval id " ++ id ++ " was not found.", 404) ∧
    approve store id d = Except.error FppaErr.ApprovalNotFound := by
  have ha : approve store id d = Except.error FppaErr.ApprovalNotFound := by
    rw [approve, hf]
  exact ⟨by rw [updateFppaStatusPut, ha], ha⟩

/-- Witness for C7 at the empty store with id `does-not-exist`. -/
theorem c7_approve_not_found_witness :
    updateFppaStatusPut [] "does-not-exist" "approved"
      = Except.ok ("Funds pre approval id " ++ "does-not-exist" ++ " was not found.", 404) ∧
    approve ([] : List Fppa) "does-not-exist" "approved"
      = Except.error FppaErr.ApprovalNotFound :=
  c7_approve_not_found [] "does-not-exist" "approved" (by rfl)

/-- Claim C1: when the local custodian is the receiver and the receiver
sub-address resolves to a local account with KYC data, `evaluate_kyc_data`
returns a new command whose recipient signature is the non-empty hex of the
compliance signature over the travel-rule message, whose receiver actor
carries the resolved account's KYC data and status `ready_for_settlement`,
and all other fields equal the input's. -/
theorem c1_receiver_evaluate (ctx : Ctx) (c : PaymentCommand) (sub : Bytes)
    (uid : Nat) (kd : KycDataObject)
    (hr : is_receiver c = true)
    (hsub : receiver_subaddress ctx.hrp c = some sub)
    (huid : ctx.subaddr_map.lookup (bytesToHex sub) = some uid)
    (hkd : ctx.kyc_info uid = some kd)
    (hsig : ctx.sign (ctx.sig_msg c) ≠ []) :
    ∃ c', evaluate_kyc_data ctx c = Except.ok c' ∧
      c'.payment.recipient_signature = some (bytesToHex (ctx.sign (ctx.sig_msg c))) ∧
      bytesToHex (ctx.sign (ctx.sig_msg c)) ≠ "" ∧
      c'.payment.receiver.kyc_data = some kd ∧
      c'.payment.receiver.status.status = Status.ready_for_settlement ∧
      c'.my_actor_address = c.my_actor_address ∧
      c'.inbound = c.inbound ∧
      c'.cid = c.cid ∧
      c'.payment.reference_id = c.payment.reference_id ∧
      c'.payment.sender = c.payment.sender ∧
      c'.payment.action = c.payment.action ∧
      c'.payment.original_payment_reference_id = c.payment.original_payment_reference_id ∧
      c'.payment.description = c.payment.description ∧
      c'.payment.receiver.address = c.payment.receiver.address ∧
      c'.payment.receiver.metadata = c.payment.receiver.metadata ∧
      c'.payment.receiver.additional_kyc_data = c.payment.receiver.additional_kyc_data := by
  have he : evaluate_kyc_data ctx c =
      Except.ok (newCommand c (some (bytesToHex (ctx.sign (ctx.sig_msg c)))) (some kd)
        (some Status.ready_for_settlement)) := by
    rw [evaluate_kyc_data, if_pos hr, send_kyc_data_and_recipient_signature]
    simp only [hsub, huid, hkd]
  refine ⟨_, he, ?_, bytesToHex_ne_empty _ hsig, ?_, ?_, ?_, ?_, ?_, ?_, ?_, ?_, ?_, ?_,
      ?_, ?_, ?_⟩ <;>
    simp [newCommand, hr]

/-- Witness for C1 at the sample receiver command and context. -/
theorem c1_receiver_evaluate_witness :
    ∃ c', evaluate_kyc_data sampleCtx sampleCmdRecv = Except.ok c' ∧
      c'.payment.recipient_signature
        = some (bytesToHex (sampleCtx.sign (sampleCtx.sig_msg sampleCmdRecv))) ∧
      bytesToHex (sampleCtx.sign (sampleCtx.sig_msg sampleCmdRecv)) ≠ "" ∧
      c'.payment.receiver.kyc_data = some sampleKd ∧
      c'.payment.receiver.status.status = Status.ready_for_settlement ∧
      c'.my_actor_address = sampleCmdRecv.my_actor_address ∧
      c'.inbound = sampleCmdRecv.inbound ∧
      c'.cid = sampleCmdRecv.cid ∧
      c'.payment.reference_id = sampleCmdRecv.payment.reference_id ∧
      c'.payment.sender = sampleCmdRecv.payment.sender ∧
      c'.payment.action = sampleCmdRecv.payment.action ∧
      c'.payment.original_payment_reference_id
        = sampleCmdRecv.payment.original_payment_reference_id ∧
      c'.payment.description = sampleCmdRecv.payment.description ∧
      c'.payment.receiver.address = sampleCmdRecv.payment.receiver.address ∧
      c'.payment.receiver.metadata = sampleCmdRecv.payment.receiver.metadata ∧
      c'.payment.receiver.additional_kyc_data
        = sampleCmdRecv.payment.receiver.additional_kyc_data :=
  c1_receiver_evaluate sampleCtx sampleCmdRecv sampleSub 11 sampleKd
    (by decide) (by decide) (by decide) (by decide) (by decide)

/-- Claim C2: when the local custodian is the sender, `evaluate_kyc_data`
returns a command identical to the input except that the sender actor's
status is `ready_for_settlement`: the recipient signature, the sender's KYC
data and every other field are unchanged. -/
theorem c2_sender_evaluate (ctx : Ctx) (c : PaymentCommand)
    (hr : is_receiver c = false) :
    ∃ c', evaluate_kyc_data ctx c = Except.ok c' ∧
      c'.payment.sender.status.status = Status.ready_for_settlement ∧
      c'.payment.recipient_signature = c.payment.recipient_signature ∧
      c'.payment.sender.kyc_data = c.payment.sender.kyc_data ∧
      c'.payment.receiver = c.payment.receiver ∧
      c'.my_actor_address = c.my_actor_address ∧
      c'.inbound = c.inbound ∧
      c'.cid = c.cid ∧
      c'.payment.reference_id = c.payment.reference_id ∧
      c'.payment.action = c.payment.action ∧
      c'.payment.original_payment_reference_id = c.payment.original_payment_reference_id ∧
      c'.payment.description = c.payment.description ∧
      c'.payment.sender.address = c.payment.sender.address ∧
      c'.payment.sender.metadata = c.payment.sender.metadata ∧
      c'.payment.sender.additional_kyc_data = c.payment.sender.additional_kyc_data := by
  have he : evaluate_kyc_data ctx c =
      Except.ok (newCommand c none none (some Status.ready_for_settlement)) := by
    rw [evaluate_kyc_data, if_neg]
    simp [hr]
  refine ⟨_, he, ?_, ?_, ?_, ?_, ?_, ?_, ?_, ?_, ?_, ?_, ?_, ?_, ?_, ?_⟩ <;>
    simp [newCommand, hr]

/-- Witness for C2 at the sample sender command and context. -/
theorem c2_sender_evaluate_witness :
    ∃ c', evaluate_kyc_data sampleCtx sampleCmdSend = Except.ok c' ∧
      c'.payment.sender.status.status = Status.ready_for_settlement ∧
      c'.payment.recipient_signature = sampleCmdSend.payment.recipient_signature ∧
      c'.payment.sender.kyc_data = sampleCmdSend.payment.sender.kyc_data ∧
      c'.payment.receiver = sampleCmdSend.payment.receiver ∧
      c'.my_actor_address = sampleCmdSend.my_actor_address ∧
      c'.inbound = sampleCmdSend.inbound ∧
      c'.cid = sampleCmdSend.cid ∧
      c'.payment.reference_id = sampleCmdSend.payment.reference_id ∧
      c'.payment.action = sampleCmdSend.payment.action ∧
      c'.payment.original_payment_reference_id
        = sampleCmdSend.payment.original_payment_reference_id ∧
      c'.payment.description = sampleCmdSend.payment.description ∧
      c'.payment.sender.address = sampleCmdSend.payment.sender.address ∧
      c'.payment.sender.metadata = sampleCmdSend.payment.sender.metadata ∧
      c'.payment.sender.additional_kyc_data
        = sampleCmdSend.payment.sender.additional_kyc_data :=
  c2_sender_evaluate sampleCtx sampleCmdSend (by decide)

/-- Claim C4: a receiver-side command whose receiver sub-address cannot be
decoded, or whose decoded sub-address does not map to a known local account,
makes `evaluate_kyc_data` fail with `SubAddressResolutionFailed`. -/
theorem c4_subaddress_resolution (ctx : Ctx) (c : PaymentCommand)
    (hr : is_receiver c = true)
    (h : receiver_subaddress ctx.hrp c = none ∨
      ∃ sub, receiver_subaddress ctx.hrp c = some sub ∧
        ctx.subaddr_map.lookup (bytesToHex sub) = none) :
    evaluate_kyc_data ctx c = Except.error EvalErr.SubAddressResolutionFailed := by
  rw [evaluate_kyc_data, if_pos hr, send_kyc_data_and_recipient_signature]
  cases h with
  | inl hn => simp only [hn]
  | inr hs =>
    obtain ⟨sub, hsub, hmap⟩ := hs
    simp only [hsub, hmap]

/-- Witness for C4 at the sample command whose receiver address does not
decode. -/
theorem c4_subaddress_resolution_witness :
    evaluate_kyc_data sampleCtx sampleCmdBad
      = Except.error EvalErr.SubAddressResolutionFailed :=
  c4_subaddress_resolution sampleCtx sampleCmdBad (by decide) (Or.inl (by decide))

theorem hasKey_append (d e : JDict) (k : String) :
    hasKey (d ++ e) k = (hasKey d k || hasKey e k) := by
  simp [hasKey, List.any_append]

theorem hasKey_if (b : Bool) (kv : String × JVal) (k : String) :
    hasKey (if b = true then [kv] else []) k = (b && (kv.1 == k)) := by
  cases b <;> simp [hasKey]

theorem hasKey_if_empty (b : Bool) (kv : String × JVal) (k : String) :
    hasKey (if b = true then [] else [kv]) k = (!b && (kv.1 == k)) := by
  cases b <;> simp [hasKey]

/-- Claim C9: in the serialized payment dict the keys
`original_payment_reference_id`, `recipient_signature` and `description`, and
in the serialized actor dict the keys `metadata`, `additional_kyc_data` and
`kyc_data`, are present exactly when the corresponding field is non-empty,
while the `kyc_data` sub-dict always carries all nine keys. -/
theorem c9_serialization_keys (c : PaymentCommand) (a : Actor) (kd : KycDataObject) :
    hasKey (payment_to_dict c.payment) "original_payment_reference_id"
      = optStrTruthy c.payment.original_payment_reference_id ∧
    hasKey (payment_to_dict c.payment) "recipient_signature"
      = optStrTruthy c.payment.recipient_signature ∧
    hasKey (payment_to_dict c.payment) "description"
      = optStrTruthy c.payment.description ∧
    hasKey (actor_to_dict a) "metadata" = !a.metadata.isEmpty ∧
    hasKey (actor_to_dict a) "additional_kyc_data" = optStrTruthy a.additional_kyc_data ∧
    hasKey (actor_to_dict a) "kyc_data" = a.kyc_data.isSome ∧
    hasKey (kyc_data_to_dict kd) "type" = true ∧
    hasKey (kyc_data_to_dict kd) "payload_version" = true ∧
    hasKey (kyc_data_to_dict kd) "given_name" = true ∧
    hasKey (kyc_data_to_dict kd) "surname" = true ∧
    hasKey (kyc_data_to_dict kd) "address" = true ∧
    hasKey (kyc_data_to_dict kd) "dob" = true ∧
    hasKey (kyc_data_to_dict kd) "place_of_birth" = true ∧
    hasKey (kyc_data_to_dict kd) "national_id" = true ∧
    hasKey (kyc_data_to_dict kd) "legal_entity_name" = true := by
  refine ⟨?_, ?_, ?_, ?_, ?_, ?_, ?_, ?_, ?_, ?_, ?_, ?_, ?_, ?_, ?_⟩
  · simp only [payment_to_dict, hasKey_append, hasKey_if]
    simp [hasKey]
  · simp only [payment_to_dict, hasKey_append, hasKey_if]
    simp [hasKey]
  · simp only [payment_to_dict, hasKey_append, hasKey_if]
    simp [hasKey]
  · simp only [actor_to_dict, hasKey_append, hasKey_if, hasKey_if_empty]
    cases a.kyc_data <;> simp [hasKey]
  · simp only [actor_to_dict, hasKey_append, hasKey_if, hasKey_if_empty]
    cases a.kyc_data <;> simp [hasKey]
  · simp only [actor_to_dict, hasKey_append, hasKey_if, hasKey_if_empty]
    cases a.kyc_data <;> simp [hasKey]
  · simp [kyc_data_to_dict, hasKey]
  · simp [kyc_data_to_dict, hasKey]
  · simp [kyc_data_to_dict, hasKey]
  · simp [kyc_data_to_dict, hasKey]
  · simp [kyc_data_to_dict, hasKey]
  · simp [kyc_data_to_dict, hasKey]
  · simp [kyc_data_to_dict, hasKey]
  · simp [kyc_data_to_dict, hasKey]
  · simp [kyc_data_to_dict, hasKey]

end RefWallet
